import Mathlib

/-!
Verification of the auto-sklearn categorical data-preprocessing components:
a shallow embedding of
`autosklearn/pipeline/components/data_preprocessing/category_shift/category_shift.py`,
`autosklearn/pipeline/components/data_preprocessing/rescaling/minmax.py` and
`autosklearn/pipeline/components/data_preprocessing/data_preprocessing_categorical.py`,
with theorems settling the specification claims about them.

Modelling conventions:
- tabular data (numpy arrays of category values) is `List (List Int)`;
- `np.random.RandomState` arguments are modelled as `Option Nat` (only their
  identity/presence matters to these components, never their contents);
- Python dictionaries with string keys are association lists;
- a Python call that can raise returns `Except String`;
- the flag constants `DENSE`, `SPARSE`, `UNSIGNED_DATA`, `SIGNED_DATA`,
  `INPUT` from `autosklearn.pipeline.constants` are opaque distinct tokens,
  modelled as strings.
-/

/-- The value of a Python `dataset_properties` argument as the source code
discriminates it: `None`, a value that is not a dict
(`not isinstance(dataset_properties, dict)`), or a dict of strings. -/
inductive DatasetPropsArg where
  | none : DatasetPropsArg
  | nonDict : DatasetPropsArg
  | dict (d : List (String × String)) : DatasetPropsArg
deriving DecidableEq

/-- Python `base.update(upd)` for string dicts: each key of `upd` overwrites
the binding in `base`, keys keep insertion order semantics irrelevant to the
claims (later duplicate keys win). -/
def dictUpdate (base upd : List (String × String)) : List (String × String) :=
  upd.foldl (fun acc kv => acc.filter (fun p => p.1 ≠ kv.1) ++ [kv]) base

/-- A value stored in a component capability dictionary
(`Dict[str, Optional[Union[str, int, bool, Tuple]]]`). -/
inductive PropValue where
  | str (s : String) : PropValue
  | bool (b : Bool) : PropValue
  | int (n : Int) : PropValue
  | tuple (ts : List String) : PropValue
  | none : PropValue
deriving DecidableEq

/-- A `ConfigSpace.configuration_space.ConfigurationSpace`, reduced to the
list of names of the hyperparameters it declares (all that the claims
observe). `ConfigurationSpace()` is the empty space. -/
structure ConfigurationSpace where
  hyperparameters : List String
deriving DecidableEq

def ConfigurationSpace.empty : ConfigurationSpace := ⟨[]⟩

namespace Implementations

/-- Modelled from the spec: `autosklearn.pipeline.implementations.CategoryShift`
is imported by `category_shift.py` but its module is not part of this
repository fragment. Per the spec ("algorithmic design beyond \x7badd a
constant\x7d") and the adapter docstring ("Add 3 to every category"), it is a
transformer whose `transform` adds the constant 3 to every category value;
its only state is whether `fit` has been called. -/
structure CategoryShift where
  fitted : Bool
deriving DecidableEq

/-- Modelled from the spec: a fresh (unfitted) underlying transformer, as
produced by `implementations.CategoryShift.CategoryShift()`. -/
def CategoryShift.create : CategoryShift := ⟨false⟩

/-- Modelled from the spec: fitting the underlying transformer records that
it has been fitted; the data is only validated, not stored. -/
def CategoryShift.fit (_c : CategoryShift) (_X : List (List Int))
    (_y : Option (List (List Int))) : CategoryShift :=
  ⟨true⟩

/-- Modelled from the spec: the underlying transform adds 3 to every
category value of its input. -/
def CategoryShift.transform (_c : CategoryShift) (X : List (List Int)) :
    List (List Int) :=
  X.map (fun row => row.map (fun v => v + 3))

end Implementations

/-- The state of a `CategoryShift` adapter component instance
(`category_shift.py`). `__init__` stores only `random_state`; the
`preprocessor` attribute is set by `fit`, so before `fit` it is absent
(modelled, together with an explicit `None`, as `Option.none` — either way
the guard line of `transform` raises). -/
structure CategoryShift where
  random_state : Option Nat
  preprocessor : Option Implementations.CategoryShift
deriving DecidableEq

/-- `CategoryShift.__init__(self, random_state=None)`: stores
`random_state`; `preprocessor` is not yet set. -/
def CategoryShift.init (random_state : Option Nat) : CategoryShift :=
  { random_state := random_state, preprocessor := Option.none }

/-- `CategoryShift.fit(self, X, y=None)`: constructs a fresh
`implementations.CategoryShift.CategoryShift()`, stores it in
`self.preprocessor`, fits it on `(X, y)` and returns `self`. -/
def CategoryShift.fit (c : CategoryShift) (X : List (List Int))
    (y : Option (List (List Int))) : CategoryShift :=
  { c with preprocessor :=
      Option.some (Implementations.CategoryShift.create.fit X y) }

/-- `CategoryShift.transform(self, X)`: raises when `self.preprocessor` is
`None` (or unset), otherwise delegates to the stored transformer. -/
def CategoryShift.transform (c : CategoryShift) (X : List (List Int)) :
    Except String (List (List Int)) :=
  match c.preprocessor with
  | Option.none => Except.error "NotImplementedError"
  | Option.some p => Except.ok (p.transform X)

/-- `CategoryShift.get_properties(dataset_properties=None)`: the literal
capability dictionary of `category_shift.py`. -/
def CategoryShift.get_properties (_dataset_properties : DatasetPropsArg) :
    List (String × PropValue) :=
  [("shortname", PropValue.str "CategShift"),
   ("name", PropValue.str "Category Shift"),
   ("handles_missing_values", PropValue.bool true),
   ("handles_nominal_values", PropValue.bool true),
   ("handles_numerical_features", PropValue.bool true),
   ("prefers_data_scaled", PropValue.bool false),
   ("prefers_data_normalized", PropValue.bool false),
   ("handles_regression", PropValue.bool true),
   ("handles_classification", PropValue.bool true),
   ("handles_multiclass", PropValue.bool true),
   ("handles_multilabel", PropValue.bool true),
   ("handles_multioutput", PropValue.bool true),
   ("is_deterministic", PropValue.bool true),
   ("handles_sparse", PropValue.bool true),
   ("handles_dense", PropValue.bool true),
   ("input", PropValue.tuple ["DENSE", "SPARSE", "UNSIGNED_DATA"]),
   ("output", PropValue.tuple ["INPUT"]),
   ("preferred_dtype", PropValue.none)]

/-- `CategoryShift.get_hyperparameter_search_space(dataset_properties=None)`:
returns `ConfigurationSpace()`. -/
def CategoryShift.get_hyperparameter_search_space
    (_dataset_properties : DatasetPropsArg) : ConfigurationSpace :=
  ConfigurationSpace.empty

/-- The state of `sklearn.preprocessing.MinMaxScaler(copy=False)` as far as
construction is concerned: the `copy` flag it was constructed with. -/
structure MinMaxScaler where
  copy : Bool
deriving DecidableEq

/-- The state of a `MinMaxScalerComponent` instance right after
`__init__` (`minmax.py`): the only attribute set is `preprocessor`; the
`random_state` argument is not stored. -/
structure MinMaxScalerComponent where
  preprocessor : MinMaxScaler
deriving DecidableEq

/-- `MinMaxScalerComponent.__init__(self, random_state=None)`: sets
`self.preprocessor = MinMaxScaler(copy=False)` and nothing else. -/
def MinMaxScalerComponent.init (_random_state : Option Nat) :
    MinMaxScalerComponent :=
  { preprocessor := { copy := false } }

/-- `MinMaxScalerComponent.get_properties(dataset_properties=None)`: the
literal capability dictionary of `minmax.py`. -/
def MinMaxScalerComponent.get_properties
    (_dataset_properties : DatasetPropsArg) : List (String × PropValue) :=
  [("shortname", PropValue.str "MinMaxScaler"),
   ("name", PropValue.str "MinMaxScaler"),
   ("handles_missing_values", PropValue.bool false),
   ("handles_nominal_values", PropValue.bool false),
   ("handles_numerical_features", PropValue.bool true),
   ("prefers_data_scaled", PropValue.bool false),
   ("prefers_data_normalized", PropValue.bool false),
   ("handles_regression", PropValue.bool true),
   ("handles_classification", PropValue.bool true),
   ("handles_multiclass", PropValue.bool true),
   ("handles_multilabel", PropValue.bool true),
   ("handles_multioutput", PropValue.bool true),
   ("is_deterministic", PropValue.bool true),
   ("handles_sparse", PropValue.bool false),
   ("handles_dense", PropValue.bool true),
   ("input", PropValue.tuple ["DENSE", "UNSIGNED_DATA"]),
   ("output", PropValue.tuple ["INPUT", "SIGNED_DATA"]),
   ("preferred_dtype", PropValue.none)]

/-- An estimator appearing as a pipeline step of
`CategoricalPreprocessingPipeline._get_pipeline_steps`. The classes
`CategoricalImputation`, `OrdinalEncoding`, `CoalescenseChoice` and
`OHEChoice` are imported, not defined in this fragment; each constructor
records exactly the arguments the source passes to the Python constructor
(the two choice classes receive `default_dataset_properties`). -/
inductive StepEstimator where
  | categoricalImputation : StepEstimator
  | ordinalEncoding : StepEstimator
  | categoryShiftStep : StepEstimator
  | coalescenseChoice (dataset_properties : List (String × String)) : StepEstimator
  | oheChoice (dataset_properties : List (String × String)) : StepEstimator
deriving DecidableEq

namespace CategoricalPreprocessingPipeline

/-- `CategoricalPreprocessingPipeline.get_properties(dataset_properties=None)`:
the literal capability dictionary of `data_preprocessing_categorical.py`
(note: it has no `handles_multioutput` entry). -/
def get_properties (_dataset_properties : DatasetPropsArg) :
    List (String × PropValue) :=
  [("shortname", PropValue.str "cat_datapreproc"),
   ("name", PropValue.str "categorical data preprocessing"),
   ("handles_missing_values", PropValue.bool true),
   ("handles_nominal_values", PropValue.bool true),
   ("handles_numerical_features", PropValue.bool true),
   ("prefers_data_scaled", PropValue.bool false),
   ("prefers_data_normalized", PropValue.bool false),
   ("handles_regression", PropValue.bool true),
   ("handles_classification", PropValue.bool true),
   ("handles_multiclass", PropValue.bool true),
   ("handles_multilabel", PropValue.bool true),
   ("is_deterministic", PropValue.bool true),
   ("handles_sparse", PropValue.bool true),
   ("handles_dense", PropValue.bool true),
   ("input", PropValue.tuple ["DENSE", "SPARSE", "UNSIGNED_DATA"]),
   ("output", PropValue.tuple ["INPUT"]),
   ("preferred_dtype", PropValue.none)]

/-- `CategoricalPreprocessingPipeline._get_pipeline_steps(dataset_properties=None)`:
builds `default_dataset_properties = \x7b\x7d`, updates it with
`dataset_properties` when that is a dict, and returns the five-step list. -/
def getPipelineSteps (dataset_properties : DatasetPropsArg) :
    List (String × StepEstimator) :=
  let default_dataset_properties : List (String × String) :=
    match dataset_properties with
    | DatasetPropsArg.dict d => dictUpdate [] d
    | _ => []
  [("imputation", StepEstimator.categoricalImputation),
   ("encoding", StepEstimator.ordinalEncoding),
   ("category_shift", StepEstimator.categoryShiftStep),
   ("category_coalescence",
      StepEstimator.coalescenseChoice default_dataset_properties),
   ("categorical_encoding", StepEstimator.oheChoice default_dataset_properties)]

/-- `CategoricalPreprocessingPipeline._get_hyperparameter_search_space`:
starts from `ConfigurationSpace()`, replaces a `None` or non-dict
`dataset_properties` by the empty dict, and returns the result of
`self._get_base_search_space(cs, dataset_properties, exclude, include,
pipeline=self.steps)`. `_get_base_search_space` lives in
`autosklearn.pipeline.base` (not in this fragment), so it is an explicit
function parameter `base`. -/
def getHyperparameterSearchSpace
    (base : ConfigurationSpace → List (String × String) →
      Option (List (String × String)) → Option (List (String × String)) →
      List (String × StepEstimator) → ConfigurationSpace)
    (incl excl : Option (List (String × String)))
    (dataset_properties : DatasetPropsArg)
    (steps : List (String × StepEstimator)) : ConfigurationSpace :=
  let cs := ConfigurationSpace.empty
  let dataset_properties' : List (String × String) :=
    match dataset_properties with
    | DatasetPropsArg.dict d => d
    | _ => []
  base cs dataset_properties' excl incl steps

end CategoricalPreprocessingPipeline

/-- Modelled from the spec: the composite pipeline (`BasePipeline`, not in
this fragment) runs its steps "executed in sequence", each estimator
applied to the previous step's output. Given an abstract semantics `f` for
estimator application, this returns the execution trace: for each step in
order, its label, the data it received and the data it produced. -/
def runPipelineTrace {α : Type} (f : StepEstimator → α → α) :
    List (String × StepEstimator) → α → List (String × α × α)
  | [], _ => []
  | (l, e) :: rest, X => (l, X, f e X) :: runPipelineTrace f rest (f e X)

/-- A trace is chained from `X`: the first step receives `X`, and every
later step receives exactly the output of the step before it. -/
def chainedFrom {α : Type} (X : α) : List (String × α × α) → Prop
  | [] => True
  | (_, inp, out) :: rest => inp = X ∧ chainedFrom out rest

/-- A concrete stand-in for `_get_base_search_space`, used to observe which
`dataset_properties` dict it is handed: it records the keys of that dict as
hyperparameter names. -/
def probeBaseSearchSpace (cs : ConfigurationSpace) (d : List (String × String))
    (_excl _incl : Option (List (String × String)))
    (_steps : List (String × StepEstimator)) : ConfigurationSpace :=
  ConfigurationSpace.mk (cs.hyperparameters ++ d.map Prod.fst)

theorem chainedFrom_runPipelineTrace {α : Type} (f : StepEstimator → α → α) :
    ∀ (steps : List (String × StepEstimator)) (X : α),
      chainedFrom X (runPipelineTrace f steps X)
  | [], _ => trivial
  | (_, e) :: rest, X =>
    ⟨rfl, chainedFrom_runPipelineTrace f rest (f e X)⟩

/-- Claim C1, counterexample: `_get_pipeline_steps` does not return the same
list for every `dataset_properties` argument. With a non-empty dict the
"category_coalescence" and "categorical_encoding" estimators are constructed
with that dict; with `None` they are constructed with the empty dict, so the
returned lists differ. -/
theorem c1_counterexample :
    CategoricalPreprocessingPipeline.getPipelineSteps
        (DatasetPropsArg.dict [("target_type", "classification")])
      ≠ CategoricalPreprocessingPipeline.getPipelineSteps DatasetPropsArg.none := by
  decide

/-- Claim C1, amended: for every `dataset_properties` argument (including
`None` and non-dict values), `_get_pipeline_steps` returns a list of exactly
five (label, estimator) pairs whose labels, in order, are "imputation",
"encoding", "category_shift", "category_coalescence", "categorical_encoding";
the first three estimators are fixed, while the two choice estimators are
both constructed with the normalized `dataset_properties` dict (empty when
the argument is `None` or not a dict). -/
theorem c1_steps_shape (dp : DatasetPropsArg) :
    ((CategoricalPreprocessingPipeline.getPipelineSteps dp).map Prod.fst
        = ["imputation", "encoding", "category_shift",
           "category_coalescence", "categorical_encoding"])
    ∧ (CategoricalPreprocessingPipeline.getPipelineSteps dp).length = 5
    ∧ ∃ d : List (String × String),
        CategoricalPreprocessingPipeline.getPipelineSteps dp =
          [("imputation", StepEstimator.categoricalImputation),
           ("encoding", StepEstimator.ordinalEncoding),
           ("category_shift", StepEstimator.categoryShiftStep),
           ("category_coalescence", StepEstimator.coalescenseChoice d),
           ("categorical_encoding", StepEstimator.oheChoice d)] :=
  ⟨rfl, rfl, ⟨_, rfl⟩⟩

/-- Claim C2: on a fitted `CategoryShift` component, `transform` succeeds
and every entry of `transform(X)` equals the corresponding entry of `X`
plus 3 (missing entries stay missing). -/
theorem c2_transform_adds_three (rs : Option Nat) (X0 X : List (List Int))
    (y : Option (List (List Int))) :
    ∃ Y : List (List Int),
      ((CategoryShift.init rs).fit X0 y).transform X = Except.ok Y
      ∧ ∀ i j : Nat, Y[i]?.bind (fun row => row[j]?)
          = (X[i]?.bind (fun row => row[j]?)).map (fun v => v + 3) := by
  refine ⟨_, rfl, fun i j => ?_⟩
  cases h : X[i]? <;>
    simp [Implementations.CategoryShift.transform, List.getElem?_map, h]

/-- Claim C3: for each of `CategoryShift`, `MinMaxScalerComponent` and
`CategoricalPreprocessingPipeline`, `get_properties` returns one fixed
capability dictionary independent of the `dataset_properties` argument, and
that dictionary contains the boolean flags `handles_sparse` and
`is_deterministic`. -/
theorem c3_get_properties_fixed (dp dp' : DatasetPropsArg) :
    (CategoryShift.get_properties dp = CategoryShift.get_properties dp'
      ∧ (CategoryShift.get_properties dp).lookup "handles_sparse"
          = Option.some (PropValue.bool true)
      ∧ (CategoryShift.get_properties dp).lookup "is_deterministic"
          = Option.some (PropValue.bool true))
    ∧ (MinMaxScalerComponent.get_properties dp
          = MinMaxScalerComponent.get_properties dp'
      ∧ (MinMaxScalerComponent.get_properties dp).lookup "handles_sparse"
          = Option.some (PropValue.bool false)
      ∧ (MinMaxScalerComponent.get_properties dp).lookup "is_deterministic"
          = Option.some (PropValue.bool true))
    ∧ (CategoricalPreprocessingPipeline.get_properties dp
          = CategoricalPreprocessingPipeline.get_properties dp'
      ∧ (CategoricalPreprocessingPipeline.get_properties dp).lookup "handles_sparse"
          = Option.some (PropValue.bool true)
      ∧ (CategoricalPreprocessingPipeline.get_properties dp).lookup "is_deterministic"
          = Option.some (PropValue.bool true)) :=
  ⟨⟨rfl, rfl, rfl⟩, ⟨rfl, rfl, rfl⟩, ⟨rfl, rfl, rfl⟩⟩

/-- Claim C4: `CategoryShift.fit` stores in `self.preprocessor` a freshly
constructed and fitted `implementations.CategoryShift` transformer and
returns the component itself (its other state unchanged); and whenever a
transformer `p` is stored, `CategoryShift.transform` returns exactly
`p.transform(X)`. -/
theorem c4_fit_stores_transform_delegates (c : CategoryShift)
    (X Xt : List (List Int)) (y : Option (List (List Int)))
    (p : Implementations.CategoryShift)
    (h : c.preprocessor = Option.some p) :
    (c.fit X y
        = { random_state := c.random_state,
            preprocessor :=
              Option.some (Implementations.CategoryShift.create.fit X y) })
    ∧ c.transform Xt = Except.ok (p.transform Xt) :=
  ⟨rfl, by simp [CategoryShift.transform, h]⟩

/-- Claim C4, witness: a concrete fitted component delegates its transform
to the stored transformer, adding 3 to each entry. -/
theorem c4_witness :
    ((CategoryShift.mk Option.none (Option.some ⟨true⟩)).fit [[5]] Option.none
        = { random_state := Option.none, preprocessor := Option.some ⟨true⟩ })
    ∧ (CategoryShift.mk Option.none (Option.some ⟨true⟩)).transform [[0, 1]]
        = Except.ok [[3, 4]] :=
  c4_fit_stores_transform_delegates
    (CategoryShift.mk Option.none (Option.some ⟨true⟩)) [[5]] [[0, 1]]
    Option.none ⟨true⟩ rfl

/-- Claim C5: for every `dataset_properties` argument,
`CategoryShift.get_hyperparameter_search_space` returns the empty
`ConfigurationSpace`, declaring no tunable hyperparameters. -/
theorem c5_empty_search_space (dp : DatasetPropsArg) :
    CategoryShift.get_hyperparameter_search_space dp = ConfigurationSpace.empty
    ∧ (CategoryShift.get_hyperparameter_search_space dp).hyperparameters = [] :=
  ⟨rfl, rfl⟩

/-- Claim C6: `MinMaxScalerComponent.__init__` always sets
`self.preprocessor` to a `MinMaxScaler` constructed with `copy=False`, and
`CategoryShift.fit` always sets `self.preprocessor` to a fitted
`implementations.CategoryShift` instance. -/
theorem c6_wrapped_preprocessors (rs : Option Nat) (c : CategoryShift)
    (X : List (List Int)) (y : Option (List (List Int))) :
    (MinMaxScalerComponent.init rs).preprocessor = { copy := false }
    ∧ (c.fit X y).preprocessor
        = Option.some (Implementations.CategoryShift.create.fit X y) :=
  ⟨rfl, rfl⟩

/-- Claim C7: under any estimator semantics, the composite pipeline executes
the step estimators of `_get_pipeline_steps` in exactly the declared order
(the trace labels are the declared labels in order), and the trace is
chained: the first step receives the input and every later step receives
exactly the previous step's output. -/
theorem c7_steps_executed_in_order {α : Type} (f : StepEstimator → α → α)
    (dp : DatasetPropsArg) (X : α) :
    ((runPipelineTrace f
          (CategoricalPreprocessingPipeline.getPipelineSteps dp) X).map Prod.fst
        = (CategoricalPreprocessingPipeline.getPipelineSteps dp).map Prod.fst)
    ∧ chainedFrom X (runPipelineTrace f
        (CategoricalPreprocessingPipeline.getPipelineSteps dp) X) :=
  ⟨rfl, chainedFrom_runPipelineTrace f _ X⟩

/-- Claim C8: on a `CategoryShift` component on which `fit` has never been
called (its state is exactly the state `__init__` leaves), `transform`
raises for every input: it returns an error, never a value. -/
theorem c8_unfitted_transform_raises (rs : Option Nat) (X : List (List Int)) :
    ∃ e : String, (CategoryShift.init rs).transform X = Except.error e :=
  ⟨"NotImplementedError", rfl⟩

/-- Claim C9: `MinMaxScalerComponent` construction is independent of its
`random_state` argument: any two values of the argument yield components
with identical state. -/
theorem c9_random_state_independent (r1 r2 : Option Nat) :
    MinMaxScalerComponent.init r1 = MinMaxScalerComponent.init r2 :=
  rfl

/-- Claim C10: whenever `dataset_properties` is `None` or not a dict,
`_get_hyperparameter_search_space` replaces it by the empty dict before
passing it to `_get_base_search_space`: the call reduces to
`_get_base_search_space` applied to the fresh `ConfigurationSpace` and the
empty dict, so it never dereferences an invalid `dataset_properties`. -/
theorem c10_search_space_normalizes
    (base : ConfigurationSpace → List (String × String) →
      Option (List (String × String)) → Option (List (String × String)) →
      List (String × StepEstimator) → ConfigurationSpace)
    (incl excl : Option (List (String × String)))
    (dp : DatasetPropsArg) (steps : List (String × StepEstimator))
    (h : dp = DatasetPropsArg.none ∨ dp = DatasetPropsArg.nonDict) :
    CategoricalPreprocessingPipeline.getHyperparameterSearchSpace
        base incl excl dp steps
      = base ConfigurationSpace.empty [] excl incl steps := by
  rcases h with h | h <;> subst h <;> rfl

/-- Claim C10, witness: at `dataset_properties = None` and a concrete base
search-space function, the search space is built from the empty dict. -/
theorem c10_witness :
    CategoricalPreprocessingPipeline.getHyperparameterSearchSpace
        probeBaseSearchSpace Option.none Option.none DatasetPropsArg.none []
      = probeBaseSearchSpace ConfigurationSpace.empty []
          Option.none Option.none [] :=
  c10_search_space_normalizes probeBaseSearchSpace Option.none Option.none
    DatasetPropsArg.none [] (Or.inl rfl)
